import Mathlib

/-!
Shallow embedding of the browser-side logic of the hotdog_classifier
repository (static/js/main.js and the unnamed revisions part_000,
part_002, part_003), together with proofs about the history/stats
bookkeeping, the submission validation paths and the error handling.

Strings are modelled with Lean `String`; the JavaScript string methods
`startsWith`, `includes` and `trim` are modelled on the underlying
character lists.
-/

namespace Hotdog

/-- Model of JavaScript `s.startsWith(p)`: `p` is a prefix of `s`. -/
def jsStartsWith (s p : String) : Bool := p.data.isPrefixOf s.data

/-- Boolean test that `p` occurs as a contiguous sublist of the second list. -/
def containsSub (p : List Char) : List Char → Bool
  | [] => p.isEmpty
  | a :: t => p.isPrefixOf (a :: t) || containsSub p t

/-- Model of JavaScript `s.includes(p)`: `p` occurs as a contiguous substring of `s`. -/
def jsIncludes (s p : String) : Bool := containsSub p.data s.data

/-- Model of JavaScript `s.trim()`: leading and trailing whitespace removed. -/
def jsTrim (s : String) : String :=
  ⟨((s.data.dropWhile Char.isWhitespace).reverse.dropWhile Char.isWhitespace).reverse⟩

/-- One retained history entry, as built by `addToHistory` in
static/js/main.js lines 56-62: `{ imageUrl, result: result.result,
isRealHotdog: result.isRealHotdog, timestamp }`. -/
structure HistoryItem where
  imageUrl : String
  result : String
  isRealHotdog : Bool
  timestamp : String
deriving DecidableEq

/-- The stats record of main.js lines 32-35: `{ total, hotdogs }`. -/
structure Stats where
  total : Nat
  hotdogs : Nat
deriving DecidableEq

/-- The pure list update performed by `addToHistory` (main.js lines 64-65,
identically part_000 lines 46-47 and part_002 lines 59-60):
`history.unshift(item); if (history.length > 50) history.pop();`
`unshift` puts the item at the front and `pop` removes the last element. -/
def addToHistoryList (item : HistoryItem) (history : List HistoryItem) : List HistoryItem :=
  let h := item :: history
  if h.length > 50 then h.dropLast else h

/-- `calculateStats` of main.js lines 40-42 (identically part_000 lines
29-31): `stats.total = history.length; stats.hotdogs = history.filter(item
=> item.isRealHotdog).length`. -/
def calculateStats (history : List HistoryItem) : Stats :=
  { total := history.length
    hotdogs := (history.filter (fun item => item.isRealHotdog)).length }

/-- Folding `addToHistory` over a sequence of recorded entries, earliest
entry first. -/
def recordAll (entries : List HistoryItem) (history : List HistoryItem) : List HistoryItem :=
  entries.foldl (fun h e => addToHistoryList e h) history

/-- The in-memory application state shared by the event handlers:
the module-level `history` and `stats` variables. -/
structure AppState where
  history : List HistoryItem
  stats : Stats
deriving DecidableEq

/-- The persistent store (browser localStorage), restricted to the two
keys the code uses: `hotdogHistory` and `hotdogStats`, each holding the
parsed JSON value when present. -/
structure Store where
  hotdogHistory : Option (List HistoryItem)
  hotdogStats : Option Stats
deriving DecidableEq

/-- Startup of the main.js revision (lines 31-35 and 319-321):
`history = JSON.parse(localStorage.getItem(..)) || []`, stats start at
`{0, 0}` and are immediately recomputed by `calculateStats()`. -/
def initV1 (store : Store) : AppState :=
  let history := store.hotdogHistory.getD []
  { history := history, stats := calculateStats history }

/-- Effect of `addToHistory` on the main.js state (lines 56-70): the list
update followed by `calculateStats()`. -/
def recordV1 (item : HistoryItem) (st : AppState) : AppState :=
  let h := addToHistoryList item st.history
  { history := h, stats := calculateStats h }

/-- Effect of `resetStats` in main.js (lines 75-80): history cleared,
stats recomputed from the empty list. -/
def resetV1 : AppState := { history := [], stats := calculateStats [] }

/-- What main.js persists: `addToHistory` and `resetStats` write only the
`hotdogHistory` key (line 67); the stats are never stored. -/
def persistV1 (st : AppState) : Store :=
  { hotdogHistory := some st.history, hotdogStats := none }

/-- States of the main.js revision reachable from a page load followed by
any sequence of `addToHistory` and `resetStats` calls. -/
inductive ReachableV1 : AppState → Prop
  | init (store : Store) : ReachableV1 (initV1 store)
  | record (item : HistoryItem) {st : AppState} :
      ReachableV1 st → ReachableV1 (recordV1 item st)
  | reset : ReachableV1 resetV1

/-- Startup of the part_002 revision (lines 30-34): both `hotdogStats`
and `hotdogHistory` are read back, with `{total: 0, hotdogs: 0}` and `[]`
as defaults. -/
def initV2 (store : Store) : AppState :=
  { history := store.hotdogHistory.getD []
    stats := store.hotdogStats.getD { total := 0, hotdogs := 0 } }

/-- What part_002 persists: `updateStats` writes `hotdogStats` (line 44)
and `addToHistory` writes `hotdogHistory` (line 61), so after each
operation both keys hold the current values. -/
def persistV2 (st : AppState) : Store :=
  { hotdogHistory := some st.history, hotdogStats := some st.stats }

/-- The incremental stats update of part_002 `classifyImage`
(lines 224-227): `stats.total++; if (data.result.includes('Hotdog'))
stats.hotdogs++;`. -/
def stepStatsV2 (result : String) (s : Stats) : Stats :=
  { total := s.total + 1
    hotdogs := if jsIncludes result "Hotdog" then s.hotdogs + 1 else s.hotdogs }

/-- The result styling of part_002 (lines 220-221 and 75-78):
`data.result.includes('Hotdog') ? 'var(--success-color)' :
'var(--error-color)'`. -/
def resultColorV2 (result : String) : String :=
  if jsIncludes result "Hotdog" then "var(--success-color)" else "var(--error-color)"

/-- Parsed JSON error body of a non-success response, per the wire
contract: `{error: string, details?: any}`. An absent or falsy `error`
field is modelled as the empty string; `details` holds its JSON
serialization when present. -/
structure ErrorBody where
  error : String
  details : Option String
deriving DecidableEq

/-- Parsed JSON success body: `{result, isRealHotdog, explanation?}` as
read by main.js `classifyImage` (lines 196-211). -/
structure Verdict where
  result : String
  isRealHotdog : Bool
  explanation : Option String
deriving DecidableEq

/-- A response to the POST /classify call, as seen after `response.json()`:
either a success body (`response.ok`) or an error body. -/
inductive ClassifyResponse where
  | ok (body : Verdict)
  | err (body : ErrorBody)
deriving DecidableEq

/-- Argument of `showError` (main.js lines 105-118): either a plain
message string or a thrown error body object. -/
inductive ErrVal where
  | msg (s : String)
  | body (e : ErrorBody)

/-- The banner text computed by `showError` (main.js lines 106-120):
a string is shown as is; an object with a truthy `error` field shows
`error` plus, when `details` is present, a details suffix built with
`JSON.stringify`; otherwise a generic message. -/
def showErrorText : ErrVal → String
  | .msg s => s
  | .body e =>
      if e.error = "" then "An unexpected error occurred"
      else
        e.error ++ (match e.details with
          | some d => "\nDetails: " ++ d
          | none => "")

/-- Observable outcome of one `classifyImage` call in main.js. -/
structure ClassifyResult where
  state : AppState
  errorBanner : Option String
  resultShown : Option (String × Bool)
deriving DecidableEq

/-- main.js `classifyImage` (lines 181-218), given the parsed response:
on `!response.ok` the parsed body is thrown and caught, so the state is
untouched and `showError` runs on the body; on success the verdict is
rendered and `addToHistory(previewImage.src, data)` records it, with the
current time string `now`. -/
def classifyImageV1 (resp : ClassifyResponse) (previewSrc now : String)
    (st : AppState) : ClassifyResult :=
  match resp with
  | .err body =>
      { state := st
        errorBanner := some (showErrorText (.body body))
        resultShown := none }
  | .ok v =>
      let item : HistoryItem :=
        { imageUrl := previewSrc, result := v.result
          isRealHotdog := v.isRealHotdog, timestamp := now }
      { state := recordV1 item st
        errorBanner := none
        resultShown := some (v.result, v.isRealHotdog) }

/-- A browser File value, reduced to the fields the code reads. -/
structure JsFile where
  type : String
  name : String
deriving DecidableEq

/-- The single form field carried by the POST /classify body. -/
inductive FormReq where
  | file (f : JsFile)
  | url (u : String)
  | base64 (data : String)
deriving DecidableEq

/-- Observable outcome of a submission attempt before any response
arrives: whether `resetDisplay()` ran, the issued network request if any
(`none` means no POST to /classify), and the validation error shown. -/
structure SubmitAttempt where
  displayReset : Bool
  request : Option FormReq
  validationError : Option String
deriving DecidableEq

/-- `handleFile` of main.js (lines 224-244, identically part_000 lines
153-168 and the type check of part_003 `updateThumbnail` lines 130-138):
a file whose MIME type does not start with `image/` is rejected before
any network activity; otherwise the file is read and submitted as the
`file` field. -/
def handleFile (f : JsFile) : SubmitAttempt :=
  if jsStartsWith f.type "image/" then
    { displayReset := true, request := some (.file f), validationError := none }
  else
    { displayReset := true, request := none
      validationError := some "Please upload an image file!" }

/-- `formatImageUrl` of main.js (lines 161-175): returns null unless the
input starts with `http://` or `https://`, otherwise the URL unchanged. -/
def formatImageUrlV1 (url : String) : Option String :=
  if !(jsStartsWith url "http://") && !(jsStartsWith url "https://") then none
  else some url

/-- `handleUrl` of main.js (lines 250-272): validation failure shows an
error and stops; otherwise one POST carrying the `url` field. -/
def handleUrlV1 (url : String) : SubmitAttempt :=
  match formatImageUrlV1 url with
  | none =>
      { displayReset := true, request := none
        validationError := some "Please enter a valid URL" }
  | some formatted =>
      { displayReset := true, request := some (.url formatted)
        validationError := none }

/-- The url-form submit listener of main.js (lines 303-311):
`const url = urlInput.value.trim(); if (!url) return; await handleUrl(url)`.
An empty trimmed value returns before anything observable happens. -/
def urlFormSubmitV1 (input : String) : SubmitAttempt :=
  let url := jsTrim input
  if url = "" then { displayReset := false, request := none, validationError := none }
  else handleUrlV1 url

/-- `handleUrl` of part_000 (lines 170-191): accepts `http://`, `https://`
or `data:image` inputs, submitting the `base64` field for `data:image`
inputs and the `url` field otherwise; everything else is rejected with no
network call. -/
def handleUrlV0 (url : String) : SubmitAttempt :=
  if !(jsStartsWith url "http://") && !(jsStartsWith url "https://")
      && !(jsStartsWith url "data:image") then
    { displayReset := true, request := none
      validationError := some "Please enter a valid URL or base64 image data" }
  else
    { displayReset := true
      request := some (if jsStartsWith url "data:image" then .base64 url else .url url)
      validationError := none }

/-- The url-form submit listener of part_000 (lines 220-226): same trim
and emptiness guard as main.js, then `handleUrl`. -/
def urlFormSubmitV0 (input : String) : SubmitAttempt :=
  let url := jsTrim input
  if url = "" then { displayReset := false, request := none, validationError := none }
  else handleUrlV0 url

/-- A JavaScript runtime error thrown during a handler run. -/
inductive JsError where
  | referenceError (name : String)
deriving DecidableEq

/-- The url-form submit handler of part_003 (lines 7-44), parametrized by
the value read from the url input. The handler is registered at
top-level script scope, but `loadingSpinner`, `resultContainer`,
`resultText` and `showError` are `const`s declared inside the separate
`DOMContentLoaded` callback (part_003 lines 47-57) and the element ids
are hyphenated (`loading-spinner`, `result-container`), so no
window-named-access globals exist for those identifiers either. A falsy
(empty) value returns at line 11 before anything observable; any other
value reaches `loadingSpinner.classList.remove('hidden')` at line 14,
which throws a ReferenceError for the unbound identifier
`loadingSpinner` before the `fetch` at line 18: the handler performs no
scheme validation and also never issues the POST. (With the shipped
markup it can throw even earlier, at line 10, if no `input[name="url"]`
exists; that depends on the revision's template, which is not in the
repository, so the model starts from the value read.) -/
def urlFormSubmitV3 (input : String) : Except JsError SubmitAttempt :=
  if input = "" then
    .ok { displayReset := false, request := none, validationError := none }
  else .error (.referenceError "loadingSpinner")

/-- Model of JavaScript `s.split(c)[0]`: the characters before the first
occurrence of `c`. -/
def stripAfter (c : Char) (s : String) : String :=
  ⟨s.data.takeWhile (fun x => x ≠ c)⟩

/-- Model of `url.replace(/\/$/, '')`: one trailing slash removed. -/
def dropTrailingSlash (s : String) : String :=
  if s.data.getLast? = some '/' then ⟨s.data.dropLast⟩ else s

/-- Lower-casing, for the case-insensitive extension regex. -/
def toLowerStr (s : String) : String := ⟨s.data.map Char.toLower⟩

/-- The extensions recognized by the part_002 regex
`/\.(jpg|jpeg|png|gif|webp)$/i`. -/
def imageExts : List String := ["jpg", "jpeg", "png", "gif", "webp"]

/-- Model of `/\.(jpg|jpeg|png|gif|webp)$/i.test(s)`: the lower-cased
string ends in a dot followed by a recognized extension. -/
def hasImageExt (s : String) : Bool :=
  imageExts.any (fun ext => ("." ++ ext).data.isSuffixOf (toLowerStr s).data)

/-- The query/fragment stripping of part_002 `formatImageUrl` line 165:
`url.split('?')[0].split('#')[0]`. -/
def cleanOf (url : String) : String := stripAfter '#' (stripAfter '?' url)

/-- `formatImageUrl` of part_002 (lines 149-178): rejects non-HTTP(S)
inputs; passes URLs containing `bing.com/th/id/` through unchanged;
otherwise strips query and fragment and, when no recognized image
extension is present, drops a trailing slash and appends `.jpg`. -/
def formatImageUrlV2 (url : String) : Option String :=
  if !(jsStartsWith url "http://") && !(jsStartsWith url "https://") then none
  else if jsIncludes url "bing.com/th/id/" then some url
  else
    let cleanUrl := cleanOf url
    if hasImageExt cleanUrl then some cleanUrl
    else some (dropTrailingSlash cleanUrl ++ ".jpg")

theorem addToHistoryList_eq_take (item : HistoryItem) (history : List HistoryItem)
    (hle : history.length ≤ 50) :
    addToHistoryList item history = (item :: history).take 50 := by
  unfold addToHistoryList
  rcases Nat.lt_or_ge history.length 50 with hlt | hge
  · rw [if_neg (by simp; omega)]
    exact (List.take_of_length_le (by simp; omega)).symm
  · have h50 : history.length = 50 := Nat.le_antisymm hle hge
    rw [if_pos (by simp [h50])]
    rw [List.dropLast_eq_take]
    simp [h50]

theorem take_append_take (A B : List HistoryItem) (n : Nat) :
    (A ++ B.take n).take n = (A ++ B).take n := by
  rw [List.take_append_eq_append_take, List.take_append_eq_append_take, List.take_take]
  congr 1
  rw [Nat.min_eq_left (Nat.sub_le n A.length)]

theorem recordAll_eq_take (entries : List HistoryItem) (history : List HistoryItem)
    (hle : history.length ≤ 50) :
    recordAll entries history = (entries.reverse ++ history).take 50 := by
  induction entries generalizing history with
  | nil =>
      simp [recordAll, List.take_of_length_le hle]
  | cons e es ih =>
      show recordAll es (addToHistoryList e history) = _
      rw [addToHistoryList_eq_take e history hle]
      rw [ih ((e :: history).take 50) (by simp)]
      rw [take_append_take]
      simp

/-- C1: starting from an empty history, after `addToHistory` runs 51 times
with distinct entries, the retained history has length exactly 50 and is
the 50 most recently recorded entries in most-recent-first order. -/
theorem c1_fiftyOne_records_keep_fifty (entries : List HistoryItem)
    (hlen : entries.length = 51) (_hnd : entries.Nodup) :
    (recordAll entries []).length = 50 ∧
    recordAll entries [] = entries.reverse.take 50 := by
  have h := recordAll_eq_take entries [] (by simp)
  rw [List.append_nil] at h
  refine ⟨?_, h⟩
  rw [h]
  simp [hlen]

theorem c1_witness :
    (recordAll ((List.range 51).map fun i =>
        { imageUrl := "", result := "", isRealHotdog := false,
          timestamp := Nat.repr i }) []).length = 50 :=
  (c1_fiftyOne_records_keep_fifty _ (by decide) (by decide)).1

theorem foldStatsV2_hotdogs (results : List String) (s : Stats) :
    (results.foldl (fun acc r => stepStatsV2 r acc) s).hotdogs
      = s.hotdogs + results.countP (fun r => jsIncludes r "Hotdog") := by
  induction results generalizing s with
  | nil => simp
  | cons r rs ih =>
      rw [List.foldl_cons, ih, List.countP_cons]
      by_cases h : jsIncludes r "Hotdog"
      · simp [stepStatsV2, h]
        omega
      · simp [stepStatsV2, h]

theorem foldStatsV2_total (results : List String) (s : Stats) :
    (results.foldl (fun acc r => stepStatsV2 r acc) s).total
      = s.total + results.length := by
  induction results generalizing s with
  | nil => simp
  | cons r rs ih =>
      rw [List.foldl_cons, ih]
      simp [stepStatsV2]
      omega

/-- C2: the invariant positiveCount ≤ total holds after every sequence of
record calls, both in the derive-from-history variant (main.js
`calculateStats` over the retained list) and in the incremental variant
(part_002 `classifyImage` incrementing the counters in place). -/
theorem c2_stats_invariant :
    (∀ entries : List HistoryItem,
      (calculateStats (recordAll entries [])).hotdogs
        ≤ (calculateStats (recordAll entries [])).total) ∧
    (∀ results : List String,
      (results.foldl (fun acc r => stepStatsV2 r acc) { total := 0, hotdogs := 0 }).hotdogs
        ≤ (results.foldl (fun acc r => stepStatsV2 r acc) { total := 0, hotdogs := 0 }).total) := by
  constructor
  · intro entries
    exact List.length_filter_le _ _
  · intro results
    rw [foldStatsV2_hotdogs, foldStatsV2_total]
    simpa using List.countP_le_length _

/-- C6 as stated is false: `addToHistory` pops only once, so a single
record call starting from a loaded history of length 52 leaves 52
entries, not at most 50. -/
theorem c6_counterexample :
    ¬ ((addToHistoryList
        { imageUrl := "x", result := "", isRealHotdog := false, timestamp := "" }
        (List.replicate 52
          { imageUrl := "", result := "", isRealHotdog := false, timestamp := "" })).length
      ≤ 50) := by decide

/-- C6 amended: a single `addToHistory` call removes at most one entry
from the back: the resulting length is the starting length when that is
already at least 50, and the starting length plus one otherwise. Hence
the 50-entry cap is maintained exactly when the starting length is at
most 50 (as it is for every history built by the app from empty). -/
theorem c6_amended_single_pop (item : HistoryItem) (history : List HistoryItem) :
    (addToHistoryList item history).length
      = if 50 ≤ history.length then history.length else history.length + 1 := by
  rcases Nat.lt_or_ge history.length 50 with h | h
  · rw [addToHistoryList, if_neg (by simp; omega), if_neg (by omega)]
    simp
  · rw [addToHistoryList, if_pos (by simp; omega), if_pos h]
    simp

theorem reachableV1_stats {st : AppState} (h : ReachableV1 st) :
    st.stats = calculateStats st.history := by
  induction h with
  | init store => rfl
  | record item _ _ => rfl
  | reset => rfl

/-- C7: persisting the state and reloading it as the revision does at
startup yields the identical (history, stats) pair: in the main.js
revision for every reachable state (stats are re-derived from the stored
history at startup), and in the part_002 revision for every state (both
keys are stored and read back). -/
theorem c7_roundtrip :
    (∀ st : AppState, ReachableV1 st → initV1 (persistV1 st) = st) ∧
    (∀ st : AppState, initV2 (persistV2 st) = st) := by
  constructor
  · intro st hst
    have hs := reachableV1_stats hst
    cases st with
    | mk history stats =>
        simp only [initV1, persistV1, Option.getD_some]
        simp at hs
        rw [← hs]
  · intro st
    cases st
    rfl

theorem c7_witness :
    initV1 (persistV1 (initV1 { hotdogHistory := none, hotdogStats := none }))
      = initV1 { hotdogHistory := none, hotdogStats := none } :=
  c7_roundtrip.1 _ (ReachableV1.init _)

/-- C3: on a non-success HTTP status, main.js `classifyImage` throws the
parsed error body to `showError`, so the state (history and stats) is
unchanged, no result is rendered, and the banner surfaces the `error`
field together with the `details` suffix when present. -/
theorem c3_error_response (body : ErrorBody) (previewSrc now : String) (st : AppState) :
    (classifyImageV1 (.err body) previewSrc now st).state = st ∧
    (classifyImageV1 (.err body) previewSrc now st).resultShown = none ∧
    (body.error ≠ "" →
      (classifyImageV1 (.err body) previewSrc now st).errorBanner =
        some (body.error ++ (match body.details with
          | some d => "\nDetails: " ++ d
          | none => ""))) := by
  refine ⟨rfl, rfl, fun hne => ?_⟩
  simp [classifyImageV1, showErrorText, hne]

theorem c3_witness :
    (classifyImageV1 (.err { error := "model unavailable", details := none }) "p" "t"
        { history := [], stats := { total := 0, hotdogs := 0 } }).state =
      { history := [], stats := { total := 0, hotdogs := 0 } } ∧
    (classifyImageV1 (.err { error := "model unavailable", details := none }) "p" "t"
        { history := [], stats := { total := 0, hotdogs := 0 } }).errorBanner =
      some "model unavailable" := by
  have h := c3_error_response { error := "model unavailable", details := none } "p" "t"
    { history := [], stats := { total := 0, hotdogs := 0 } }
  refine ⟨h.1, ?_⟩
  rw [h.2.2 (by decide)]
  decide

/-- C4: a file whose MIME type does not begin with `image/` is rejected
by `handleFile` with a validation error and no POST to /classify. -/
theorem c4_nonimage_file_rejected (f : JsFile)
    (h : jsStartsWith f.type "image/" = false) :
    (handleFile f).request = none ∧
    (handleFile f).validationError = some "Please upload an image file!" := by
  simp [handleFile, h]

theorem c4_witness :
    (handleFile { type := "text/plain", name := "a.txt" }).request = none :=
  (c4_nonimage_file_rejected _ (by decide)).1

/-- C5 as stated is false for the part_003 revision: its url-form
handler performs no validation at all. On the input
`ftp://example.com/a.jpg` - which begins with none of `http://`,
`https://`, `data:image` - it does not fail validation: it throws a
ReferenceError on the out-of-scope identifier `loadingSpinner` before
the fetch, the same crash it produces even for a well-formed
`https://example.com/a.jpg`, so the failure is unrelated to validation
and no validation error is ever shown. -/
theorem c5_counterexample :
    jsStartsWith "ftp://example.com/a.jpg" "http://" = false ∧
    jsStartsWith "ftp://example.com/a.jpg" "https://" = false ∧
    jsStartsWith "ftp://example.com/a.jpg" "data:image" = false ∧
    urlFormSubmitV3 "ftp://example.com/a.jpg"
      = .error (.referenceError "loadingSpinner") ∧
    urlFormSubmitV3 "https://example.com/a.jpg"
      = .error (.referenceError "loadingSpinner") :=
  ⟨by decide, by decide, by decide, rfl, rfl⟩

/-- C5 amended: in the revisions that validate the URL input (main.js
`handleUrl`/`formatImageUrl` and part_000 `handleUrl`), every input
beginning with none of `http://`, `https://`, `data:image` fails
validation immediately with no network call. The part_003 url-form
handler never reaches a validation step: for every non-empty input it
throws a ReferenceError on the out-of-scope `loadingSpinner` before the
fetch, so no network call is made there either, but not by failing
validation. -/
theorem c5_amended_validating_revisions (url : String)
    (h1 : jsStartsWith url "http://" = false)
    (h2 : jsStartsWith url "https://" = false)
    (h3 : jsStartsWith url "data:image" = false) :
    (handleUrlV1 url).request = none ∧
    (handleUrlV1 url).validationError = some "Please enter a valid URL" ∧
    (handleUrlV0 url).request = none ∧
    (handleUrlV0 url).validationError
      = some "Please enter a valid URL or base64 image data" ∧
    (url ≠ "" →
      urlFormSubmitV3 url = .error (.referenceError "loadingSpinner")) := by
  refine ⟨?_, ?_, ?_, ?_, fun hne => ?_⟩
  · simp [handleUrlV1, formatImageUrlV1, h1, h2]
  · simp [handleUrlV1, formatImageUrlV1, h1, h2]
  · simp [handleUrlV0, h1, h2, h3]
  · simp [handleUrlV0, h1, h2, h3]
  · simp only [urlFormSubmitV3, if_neg hne]

theorem c5_witness :
    (handleUrlV1 "ftp://example.com/a.jpg").request = none ∧
    (handleUrlV0 "ftp://example.com/a.jpg").request = none ∧
    urlFormSubmitV3 "ftp://example.com/a.jpg"
      = .error (.referenceError "loadingSpinner") := by
  have h := c5_amended_validating_revisions "ftp://example.com/a.jpg"
    (by decide) (by decide) (by decide)
  exact ⟨h.1, h.2.2.1, h.2.2.2.2 (by decide)⟩

theorem isSuffixOf_append_self (l m : List Char) : l.isSuffixOf (m ++ l) = true := by
  rw [List.isSuffixOf_iff_suffix]
  exact ⟨m, rfl⟩

theorem hasImageExt_append_jpg (s : String) : hasImageExt (s ++ ".jpg") = true := by
  have h2 : (toLowerStr (s ++ ".jpg")).data
      = (toLowerStr s).data ++ ['.', 'j', 'p', 'g'] := by
    show (s.data ++ ".jpg".data).map Char.toLower = s.data.map Char.toLower ++ _
    rw [List.map_append]
    congr 1
  have h1 : ("." ++ "jpg").data = ['.', 'j', 'p', 'g'] := by decide
  simp only [hasImageExt, imageExts, List.any_cons, h1, h2]
  rw [isSuffixOf_append_self]
  simp

/-- C8 as stated is false: an accepted HTTPS URL containing
`bing.com/th/id/` is passed through part_002 `formatImageUrl` unchanged,
so a bing URL with no recognized image extension is submitted without
`.jpg` being appended and does not end in a recognized extension. -/
theorem c8_counterexample :
    jsStartsWith "https://bing.com/th/id/OIP" "https://" = true ∧
    hasImageExt (cleanOf "https://bing.com/th/id/OIP") = false ∧
    formatImageUrlV2 "https://bing.com/th/id/OIP"
      = some "https://bing.com/th/id/OIP" ∧
    hasImageExt "https://bing.com/th/id/OIP" = false := by decide

/-- C8 amended: for every accepted HTTP/HTTPS URL not containing
`bing.com/th/id/`, part_002 `formatImageUrl` appends `.jpg` (after
stripping query/fragment and a trailing slash) whenever the cleaned URL
has no recognized image extension, and the URL it returns always ends in
a recognized image extension; URLs containing `bing.com/th/id/` bypass
the heuristic entirely. -/
theorem c8_amended_jpg_heuristic (url : String)
    (hacc : (jsStartsWith url "http://" || jsStartsWith url "https://") = true)
    (hbing : jsIncludes url "bing.com/th/id/" = false) :
    (hasImageExt (cleanOf url) = false →
      formatImageUrlV2 url = some (dropTrailingSlash (cleanOf url) ++ ".jpg")) ∧
    (∀ r, formatImageUrlV2 url = some r → hasImageExt r = true) := by
  have hcond : (!(jsStartsWith url "http://") && !(jsStartsWith url "https://")) = false := by
    cases ha : jsStartsWith url "http://" <;>
      cases hb : jsStartsWith url "https://" <;> simp_all
  by_cases hext : hasImageExt (cleanOf url) = true
  · constructor
    · intro hfalse
      rw [hext] at hfalse
      cases hfalse
    · intro r hr
      simp only [formatImageUrlV2, hcond, hbing, hext, if_true, if_false,
        Bool.false_eq_true, Option.some.injEq] at hr
      rw [← hr]
      exact hext
  · have hext' : hasImageExt (cleanOf url) = false := by
      cases hh : hasImageExt (cleanOf url)
      · rfl
      · exact absurd hh hext
    constructor
    · intro _
      simp only [formatImageUrlV2, hcond, hbing, hext', if_false, Bool.false_eq_true]
    · intro r hr
      simp only [formatImageUrlV2, hcond, hbing, hext', if_false, Bool.false_eq_true,
        Option.some.injEq] at hr
      rw [← hr]
      exact hasImageExt_append_jpg _

theorem c8_witness :
    formatImageUrlV2 "https://example.com/photo"
      = some "https://example.com/photo.jpg" := by
  have h := c8_amended_jpg_heuristic "https://example.com/photo" (by decide) (by decide)
  rw [h.1 (by decide)]
  decide

/-- C9: in the part_002 revision a result is counted and styled as
positive exactly when its label contains "Hotdog" as a substring; in
particular a "Not Hotdog" result increments the positive counter and is
styled with the success color, and over any sequence of successful
responses the positive counter equals the number of labels containing
"Hotdog", not the number of positive verdicts. -/
theorem c9_substring_counting :
    (∀ s : Stats, (stepStatsV2 "Not Hotdog" s).hotdogs = s.hotdogs + 1) ∧
    resultColorV2 "Not Hotdog" = "var(--success-color)" ∧
    (∀ results : List String,
      (results.foldl (fun acc r => stepStatsV2 r acc) { total := 0, hotdogs := 0 }).hotdogs
        = results.countP (fun r => jsIncludes r "Hotdog")) := by
  have hinc : jsIncludes "Not Hotdog" "Hotdog" = true := by decide
  refine ⟨fun s => ?_, by decide, fun results => ?_⟩
  · simp [stepStatsV2, hinc]
  · rw [foldStatsV2_hotdogs]
    simp

theorem jsTrim_of_all_whitespace {s : String}
    (h : ∀ c ∈ s.data, c.isWhitespace = true) : jsTrim s = "" := by
  have hd : s.data.dropWhile Char.isWhitespace = [] :=
    List.dropWhile_eq_nil_iff.mpr h
  show String.mk _ = ""
  rw [hd]
  decide

/-- C10: a url-form submission whose input is empty or all whitespace
returns before doing anything observable in both the main.js and
part_000 revisions: the display sections are not reset, no validation
error is shown, and no network call is made (hence history and stats are
untouched). -/
theorem c10_blank_input_noop (input : String)
    (h : ∀ c ∈ input.data, c.isWhitespace = true) :
    urlFormSubmitV1 input
      = { displayReset := false, request := none, validationError := none } ∧
    urlFormSubmitV0 input
      = { displayReset := false, request := none, validationError := none } := by
  have ht : jsTrim input = "" := jsTrim_of_all_whitespace h
  constructor <;> simp [urlFormSubmitV1, urlFormSubmitV0, ht]

theorem c10_witness :
    urlFormSubmitV1 "  "
      = { displayReset := false, request := none, validationError := none } :=
  (c10_blank_input_noop "  " (by decide)).1

end Hotdog
